import Mathlib

/-!
# image-checker: the probe sequence of `image-checker.go`

A shallow embedding of `main` and of the helpers it calls.  The container
runtime (the `docker` binary) is an oracle: the `k`-th invocation of the
process receives the `k`-th reply.  `main` has no loops, so it is embedded as a
straight-line list of statement groups, each of which either continues with an
updated state or ends the process with an exit status.

Not modelled: the text of error messages (every Go `error` built with
`fmt.Errorf` is the single value `GoError.errorf`), and the wall clock (a
reply says whether a timer racing the call fires first).
-/

namespace ImageChecker

/-! ## Go library functions used by the program -/

/-- Go `strings.Trim(s, cutset)`: `s` without the leading and trailing
characters that occur in `cutset`. -/
def Trim (s cutset : String) : String :=
  ⟨((s.data.dropWhile (fun c => cutset.data.contains c)).reverse.dropWhile
      (fun c => cutset.data.contains c)).reverse⟩

/-- Worker of `Split`: `cur` is the field being read, in reverse. -/
def splitAux (sep : Char) : List Char → List Char → List String
  | [], cur => [⟨cur.reverse⟩]
  | c :: cs, cur =>
    if c = sep then ⟨cur.reverse⟩ :: splitAux sep cs []
    else splitAux sep cs (c :: cur)

/-- Go `strings.Split(s, sep)` for a separator of one character: the fields
between consecutive separators; an input without separator is one field. -/
def Split (s : String) (sep : Char) : List String :=
  splitAux sep s.data []

/-- Width of Go `int` on the platforms the tool is built for. -/
def intSize : Nat := 64

/-- Value of a decimal digit, `none` for any other character. -/
def digitVal (c : Char) : Option Nat :=
  if '0' ≤ c ∧ c ≤ '9' then some (c.toNat - '0'.toNat) else none

/-- Reads a string of decimal digits, most significant first, onto `acc`. -/
def parseDigits : List Char → Nat → Option Nat
  | [], acc => some acc
  | c :: cs, acc =>
    match digitVal c with
    | some d => parseDigits cs (acc * 10 + d)
    | none => none

/-- Go `strconv.Atoi`: an optional sign, then one or more decimal digits, and
the value must fit `int`; anything else is an error (`none`). -/
def Atoi (s : String) : Option Int :=
  let (neg, ds) :=
    match s.data with
    | '-' :: r => (true, r)
    | '+' :: r => (false, r)
    | r => (false, r)
  if ds.isEmpty then none
  else
    match parseDigits ds 0 with
    | none => none
    | some n =>
      let v : Int := if neg then -(n : Int) else (n : Int)
      if -(2 ^ (intSize - 1) : Int) ≤ v ∧ v < (2 ^ (intSize - 1) : Int) then some v
      else none

/-! ## The runtime oracle and what the process does to the outside -/

/-- What `cmd.Run` / `cmd.CombinedOutput` report besides the output: the
process ended with a non-zero status, or it could not be run at all. -/
inductive ExecError where
  | exitError (status : Int)
  | other
  deriving DecidableEq, Repr

/-- Go `error` values the program distinguishes: the package variable
`errTimeout`, and any value made by `fmt.Errorf`. -/
inductive GoError where
  | errTimeout
  | errorf
  deriving DecidableEq, Repr

/-- One answer of the container runtime. `late` says that a timer racing this
call fires before the call completes; only `timeoutDockerCmd` observes it. -/
structure Reply where
  output : String
  err : Option ExecError
  late : Bool
  deriving DecidableEq, Repr

/-- The runtime: the reply to the `k`-th invocation of `docker`. -/
abbrev Runtime := Nat → Reply

/-- Lines the program prints, other than the verdict report. -/
inductive Msg where
  | imageMissing
  | usage
  | runargsEmpty
  | error
  | stopFailed
  | timeoutReached
  | stateFailed
  | stopAfterRestartFailed
  deriving DecidableEq, Repr

/-- Externally visible actions, in the order they happen. -/
inductive Event where
  | docker (args : List String) (reply : Reply)
  | sleep (seconds : Nat)
  | print (m : Msg)
  | results (image : String) (canStop canRestart needsArgs : Bool)
  deriving DecidableEq, Repr

/-- Command-line input of `main`: the positional argument and the three flags. -/
structure Config where
  image : String
  flRunArgs : String
  flRunCmd : String
  flCleanupOnFailure : Bool
  deriving DecidableEq, Repr

/-- The variables of `main`, the number of runtime invocations made so far and
the actions performed so far. -/
structure St where
  calls : Nat
  trace : List Event
  args : List String
  containerID : String
  exitCode : Int
  isRunning : Bool
  handlesStop : Bool
  handlesRestart : Bool
  commandSpecified : Bool
  deriving DecidableEq, Repr

/-- Outcome of a statement group: go on, or `os.Exit(status)`. -/
inductive Step where
  | next (s : St)
  | exit (status : Nat) (s : St)
  deriving DecidableEq, Repr

/-! ## Helpers of `image-checker.go` -/

/-- Function `getExitCode`: the status of an `*exec.ExitError`, an error otherwise. -/
def getExitCode (err : Option ExecError) : Int × Option GoError :=
  match err with
  | some (.exitError status) => (status, none)
  | _ => (0, some .errorf)

/-- Function `processExitCode`: 0 without error, the exit status when it can be read,
127 otherwise. -/
def processExitCode (err : Option ExecError) : Int :=
  match err with
  | none => 0
  | some e =>
    match getExitCode (some e) with
    | (_, some _) => 127
    | (code, none) => code

/-- Starts one `docker` process: consumes the next reply and records the call. -/
def invoke (rt : Runtime) (s : St) (args : List String) : Reply × St :=
  let r := rt s.calls
  (r, { s with calls := s.calls + 1, trace := s.trace ++ [Event.docker args r] })

/-- Function `runCommandWithOutput` on `exec.Command("docker", args...)`. -/
def runCommandWithOutput (rt : Runtime) (s : St) (args : List String) :
    (String × Int × Option ExecError) × St :=
  let (r, s1) := invoke rt s args
  ((r.output, processExitCode r.err, r.err), s1)

/-- Function `runCommand` on `exec.Command("docker", args...)`. -/
def runCommand (rt : Runtime) (s : St) (args : List String) :
    (Int × Option ExecError) × St :=
  let (r, s1) := invoke rt s args
  ((processExitCode r.err, r.err), s1)

/-- Function `dockerCmd`: the output, or an error when the call failed or ended with a
non-zero status. -/
def dockerCmd (rt : Runtime) (s : St) (args : List String) :
    (String × Option GoError) × St :=
  let ((out, exitCode, err), s1) := runCommandWithOutput rt s args
  if err.isSome || exitCode != 0 then (("", some .errorf), s1)
  else ((out, none), s1)

/-- Function `pullImage`. -/
def pullImage (rt : Runtime) (s : St) (image : String) : Option GoError × St :=
  let ((_, err), s1) := dockerCmd rt s ["pull", image]
  if err.isSome then (some .errorf, s1) else (err, s1)

/-- Function `imageExists`. -/
def imageExists (rt : Runtime) (s : St) (image : String) : Option GoError × St :=
  let ((_, err), s1) := dockerCmd rt s ["inspect", image]
  if err.isSome then (some .errorf, s1) else (err, s1)

/-- Function `runContainer`: the container id is the output without newlines around it. -/
def runContainer (rt : Runtime) (s : St) (args : List String) :
    (String × Option GoError) × St :=
  let ((out, err), s1) := dockerCmd rt s args
  if err.isSome then (("", some .errorf), s1)
  else ((Trim out "\n", none), s1)

/-- Function `deleteContainer`. -/
def deleteContainer (rt : Runtime) (s : St) (containerID : String) : Option GoError × St :=
  let ((_, err), s1) := dockerCmd rt s ["rm", containerID]
  if err.isSome then (some .errorf, s1) else (err, s1)

/-- Function `stopContainer`: sends SIGTERM. -/
def stopContainer (rt : Runtime) (s : St) (containerID : String) : Option GoError × St :=
  let ((_, err), s1) := dockerCmd rt s ["kill", "-s", "TERM", containerID]
  if err.isSome then (some .errorf, s1) else (err, s1)

/-- Function `startContainer`. -/
def startContainer (rt : Runtime) (s : St) (containerID : String) : Option GoError × St :=
  let ((_, err), s1) := dockerCmd rt s ["start", containerID]
  if err.isSome then (some .errorf, s1) else (err, s1)

/-- Function `killContainer`: the forced kill. -/
def killContainer (rt : Runtime) (s : St) (containerID : String) : Option GoError × St :=
  let ((exitCode, err), s1) := runCommand rt s ["kill", containerID]
  if err.isSome || exitCode != 0 then (some .errorf, s1) else (none, s1)

/-- The format argument of the state inspection. -/
def stateFormat : String := "--format=\x7b\x7b.State.Running\x7d\x7d \x7b\x7b.State.ExitCode\x7d\x7d"

/-- Lines 143-157 of `getContainerState`: reads exit status and running flag
from the output of a successful inspection. The match on a list of two fields
is the test `len(splitOutput) != 2`. -/
def parseState (out : String) : (Int × Bool) × Option GoError :=
  let out := Trim out "\n"
  let splitOutput := Split out ' '
  match splitOutput with
  | [f0, f1] =>
    let running := f0 == "true"
    match Atoi f1 with
    | some n => ((n, running), none)
    | none => ((0, false), some .errorf)
  | _ => ((0, false), some .errorf)

/-- Function `getContainerState`: exit status, running flag, error. -/
def getContainerState (rt : Runtime) (s : St) (id : String) :
    ((Int × Bool) × Option GoError) × St :=
  let ((out, err), s1) := dockerCmd rt s ["inspect", stateFormat, id]
  if err.isSome then (((0, false), some .errorf), s1)
  else (parseState out, s1)

/-- Function `cleanUp`: forced kill, then removal; both errors are dropped. -/
def cleanUp (rt : Runtime) (s : St) (id : String) : St :=
  let (_, s1) := killContainer rt s id
  let (_, s2) := deleteContainer rt s1 id
  s2

/-- Appends one action to the trace. -/
def St.emit (s : St) (e : Event) : St :=
  { s with trace := s.trace ++ [e] }

/-- Function `printResults`: the report carries the three verdicts it is given. -/
def printResults (s : St) (image : String) (canStop canRestart needsArgs : Bool) : St :=
  s.emit (Event.results image canStop canRestart needsArgs)

/-- Function `timeoutDockerCmd`: the call is started; if the timer fires first the
result is `errTimeout` (after printing a line), else the result of the call.
The deadline itself is not modelled: `Reply.late` already says who wins. -/
def timeoutDockerCmd (rt : Runtime) (s : St) (_timeout : Nat) (args : List String) :
    Option GoError × St :=
  let ((_, err), s1) := dockerCmd rt s args
  if (rt s.calls).late then (some .errTimeout, s1.emit (Event.print .timeoutReached))
  else (err, s1)

/-! ## `main`, one definition per statement group -/

/-- A statement group of `main`. -/
abbrev Stmt := Runtime → Config → St → Step

/-- Lines 211-219: the variables of `main` before `flag.Parse`. -/
def initSt : St :=
  { calls := 0, trace := [], args := ["run"], containerID := "", exitCode := 0,
    isRunning := false, handlesStop := true, handlesRestart := true,
    commandSpecified := false }

/-- Lines 222-231: the image argument is required; empty runargs only warn. -/
def checkFlags : Stmt := fun _ cfg s =>
  if cfg.image == "" then
    Step.exit 1 ((s.emit (Event.print .imageMissing)).emit (Event.print .usage))
  else if cfg.flRunArgs == "" then
    Step.next (s.emit (Event.print .runargsEmpty))
  else Step.next s

/-- Lines 233-236: pull the image when it does not exist; a failed pull is fatal. -/
def ensureImage : Stmt := fun rt cfg s =>
  let (err, s1) := imageExists rt s cfg.image
  if err.isSome then
    let (err, s2) := pullImage rt s1 cfg.image
    if err.isSome then Step.exit 1 (s2.emit (Event.print .error))
    else Step.next s2
  else Step.next s1

/-- Lines 238-245: the arguments of the run call. -/
def buildArgs : Stmt := fun _ cfg s =>
  let runArgs := Split cfg.flRunArgs ' '
  let args := (s.args ++ runArgs) ++ [cfg.image]
  if cfg.flRunCmd.length > 0 then
    let runCmd := Split cfg.flRunCmd ' '
    Step.next { s with args := args ++ runCmd, commandSpecified := true }
  else Step.next { s with args := args }

/-- Lines 247-249: run the container, then the settle wait. -/
def runStep : Stmt := fun rt _ s =>
  let ((containerID, err), s1) := runContainer rt s s.args
  if err.isSome then Step.exit 1 (s1.emit (Event.print .error))
  else Step.next ({ s1 with containerID := containerID }.emit (Event.sleep 5))

/-- Lines 251-265: the liveness check. -/
def liveness : Stmt := fun rt cfg s =>
  let (((exitCode, isRunning), err), s1) := getContainerState rt s s.containerID
  let s2 := { s1 with exitCode := exitCode, isRunning := isRunning }
  let err : Option GoError := if err.isSome then some .errorf else err
  let err : Option GoError := if !isRunning && err.isNone then some .errorf else err
  if err.isSome then
    let s3 := if cfg.flCleanupOnFailure then cleanUp rt s2 s2.containerID else s2
    Step.exit 1 (s3.emit (Event.print .error))
  else Step.next s2

/-- Lines 267-275: the first SIGTERM; a failure is fatal. -/
def firstStop : Stmt := fun rt cfg s =>
  let (err, s1) := stopContainer rt s s.containerID
  if err.isSome then
    let s2 := s1.emit (Event.print .stopFailed)
    let s3 := if cfg.flCleanupOnFailure then cleanUp rt s2 s2.containerID else s2
    Step.exit 1 s3
  else Step.next s1

/-- Lines 277-280: wait for the container, at most 5 seconds. -/
def firstWait : Stmt := fun rt _ s =>
  let (err, s1) := timeoutDockerCmd rt s 5 ["wait", s.containerID]
  if err = some .errTimeout then Step.next { s1 with handlesStop := false }
  else Step.next s1

/-- Lines 282-291: inspect again; a container that still runs or ended with a
non-zero status fails the stop test and is killed. -/
def firstInspect : Stmt := fun rt _ s =>
  let (((exitCode, isRunning), err), s1) := getContainerState rt s s.containerID
  if err.isSome then Step.exit 1 (s1.emit (Event.print .stateFailed))
  else
    let s2 := { s1 with exitCode := exitCode, isRunning := isRunning }
    if exitCode != 0 || isRunning then
      let s3 := { s2 with handlesStop := false }
      let (_, s4) := killContainer rt s3 s3.containerID
      Step.next s4
    else Step.next s2

/-- Lines 293-297: start the container again. -/
def restart : Stmt := fun rt _ s =>
  let (err, s1) := startContainer rt s s.containerID
  if err.isSome || !s1.handlesStop then Step.next { s1 with handlesRestart := false }
  else Step.next s1

/-- Lines 299-307: the restarted container has to be running. -/
def inspectRestarted : Stmt := fun rt _ s =>
  let (((_, isRunning), err), s1) := getContainerState rt s s.containerID
  if err.isSome then Step.exit 1 (s1.emit (Event.print .stateFailed))
  else
    let s2 := { s1 with isRunning := isRunning }
    if !isRunning then Step.next { s2 with handlesRestart := false }
    else Step.next s2

/-- Lines 309-315: the early exit when a verdict is already false. -/
def gate : Stmt := fun rt cfg s =>
  if !s.handlesStop || !s.handlesRestart then
    let s1 := if cfg.flCleanupOnFailure then cleanUp rt s s.containerID else s
    Step.exit 2 (printResults s1 cfg.image s1.handlesStop s1.handlesRestart s1.commandSpecified)
  else Step.next s

/-- Lines 317-323: the second SIGTERM; a failure fails the stop test. -/
def secondStop : Stmt := fun rt _ s =>
  let (err, s1) := stopContainer rt s s.containerID
  if err.isSome then
    let s2 := s1.emit (Event.print .stopAfterRestartFailed)
    let s3 := { s2 with handlesStop := false }
    let (_, s4) := killContainer rt s3 s3.containerID
    Step.next s4
  else Step.next s1

/-- Lines 325-328: wait for the restarted container, at most 5 seconds. -/
def secondWait : Stmt := fun rt _ s =>
  let (err, s1) := timeoutDockerCmd rt s 5 ["wait", s.containerID]
  if err = some .errTimeout then Step.next { s1 with handlesStop := false }
  else Step.next s1

/-- Lines 329-337: inspect the restarted container after the second stop. -/
def secondInspect : Stmt := fun rt _ s =>
  let (((exitCode, isRunning), err), s1) := getContainerState rt s s.containerID
  if err.isSome then Step.exit 1 (s1.emit (Event.print .stateFailed))
  else
    let s2 := { s1 with exitCode := exitCode, isRunning := isRunning }
    if exitCode != 0 || isRunning then
      let s3 := { s2 with handlesStop := false }
      let (_, s4) := killContainer rt s3 s3.containerID
      Step.next s4
    else Step.next s2

/-- Lines 339-340: the report, then the unconditional clean-up. -/
def terminal : Stmt := fun rt cfg s =>
  let s1 := printResults s cfg.image s.handlesStop s.handlesRestart s.commandSpecified
  Step.next (cleanUp rt s1 s1.containerID)

/-- Runs statement groups in order until one of them exits. -/
def exec (rt : Runtime) (cfg : Config) : List Stmt → St → Step
  | [], s => Step.next s
  | f :: fs, s =>
    match f rt cfg s with
    | Step.next s1 => exec rt cfg fs s1
    | Step.exit c s1 => Step.exit c s1

/-- Lines 267-291: the first graceful-stop test. -/
def firstStopTest : List Stmt := [firstStop, firstWait, firstInspect]

/-- Lines 293-307: the restart test. -/
def restartTest : List Stmt := [restart, inspectRestarted]

/-- Lines 317-337: the second graceful-stop test. -/
def secondStopTest : List Stmt := [secondStop, secondWait, secondInspect]

/-- Lines 220-265: everything before the first stop test. -/
def prepare : List Stmt := [checkFlags, ensureImage, buildArgs, runStep, liveness]

/-- The body of `main` as its statement groups, in source order. -/
def mainBody : List Stmt :=
  prepare ++ firstStopTest ++ restartTest ++ [gate] ++ secondStopTest ++ [terminal]

/-- What a run of the process leaves behind: exit status and actions. -/
structure Outcome where
  status : Nat
  trace : List Event
  deriving DecidableEq, Repr

/-- Exit status and final state of a run: returning from `main` is status 0. -/
def Step.status : Step → Nat
  | Step.next _ => 0
  | Step.exit c _ => c

/-- The status with which a step ended the process, `none` when it did not. -/
def Step.exited : Step → Option Nat
  | Step.next _ => none
  | Step.exit c _ => some c

/-- The state in which a step ended. -/
def Step.st : Step → St
  | Step.next s => s
  | Step.exit _ s => s

/-- The program: `main` run against a runtime with the given command line. -/
def main (rt : Runtime) (cfg : Config) : Outcome :=
  let r := exec rt cfg mainBody initSt
  { status := r.status, trace := r.st.trace }

/-- The state of `main` after its first `k` statement groups (the state at
exit when the process ended earlier). -/
def stateAfter (rt : Runtime) (cfg : Config) (k : Nat) : St :=
  (exec rt cfg (mainBody.take k) initSt).st

/-! ## Predicates on traces and statement groups -/

/-- Whether the action is a verdict report. -/
def Event.isReport : Event → Bool
  | Event.results _ _ _ _ => true
  | _ => false

/-- Whether the action, when it is a verdict report, shows the verdicts
`canStop` and `canRestart`. -/
def Event.shows (canStop canRestart : Bool) : Event → Bool
  | Event.results _ a b _ => a == canStop && b == canRestart
  | _ => true

/-- Whether the action is an invocation of the runtime subcommand `cmd`. -/
def Event.isCall (cmd : String) : Event → Bool
  | Event.docker (c :: _) _ => c == cmd
  | _ => false

/-- Whether the action is a failed infrastructure call: a `pull` or `run` call
that failed, or a state inspection that failed or whose output is rejected by
`parseState` (not two fields, or a second field that `Atoi` rejects). -/
def Event.isInfraFailure : Event → Bool
  | Event.docker args r =>
    ((args.head? == some "pull" || args.head? == some "run") && r.err.isSome) ||
    (args.length == 3 && args.head? == some "inspect" && args[1]? == some stateFormat &&
      (r.err.isSome || (parseState r.output).2.isSome))
  | _ => false

/-- A state of `main` in which no infrastructure call has failed and no
verdict report was printed so far, and whose run call starts with `run`. -/
def Clean (s : St) : Prop :=
  s.args.head? = some "run" ∧ (∀ e ∈ s.trace, e.isReport = false) ∧
    (∀ e ∈ s.trace, e.isInfraFailure = false)

/-- A statement group that, from a clean state, continues only in a clean
state, and that ends the process with status 1 and without a report whenever
an infrastructure call has failed. -/
def FatalOnInfra (f : Stmt) : Prop :=
  ∀ rt cfg s, Clean s →
    ((f rt cfg s).exited = none → Clean (f rt cfg s).st) ∧
    ((∃ e ∈ (f rt cfg s).st.trace, e.isInfraFailure = true) →
      (f rt cfg s).exited = some 1 ∧ ∀ e ∈ (f rt cfg s).st.trace, e.isReport = false)

/-- What holds of the state of `main` up to the first stop test: both verdicts
are still true, the run call starts with `run`, and so far nothing was killed
and nothing was reported. -/
def Fresh (s : St) : Prop :=
  s.handlesStop = true ∧ s.handlesRestart = true ∧ s.args.head? = some "run" ∧
    (∀ e ∈ s.trace, e.isCall "kill" = false) ∧ (∀ e ∈ s.trace, e.isReport = false)

/-- A statement group never turns a false verdict true. -/
def NonIncreasing (f : Stmt) : Prop :=
  ∀ rt cfg s, ((f rt cfg s).st.handlesStop = true → s.handlesStop = true) ∧
    ((f rt cfg s).st.handlesRestart = true → s.handlesRestart = true)

/-- A statement group that prints no verdict report. -/
def Silent (f : Stmt) : Prop :=
  ∀ rt cfg s, (∀ e ∈ s.trace, e.isReport = false) →
    ∀ e ∈ (f rt cfg s).st.trace, e.isReport = false

/-- A statement group that, started before any report, prints no report when
it continues, and otherwise only reports of the verdicts it ends with. -/
def ReportsAtExit (f : Stmt) : Prop :=
  ∀ rt cfg s, (∀ e ∈ s.trace, e.isReport = false) →
    ((f rt cfg s).exited = none → ∀ e ∈ (f rt cfg s).st.trace, e.isReport = false) ∧
    (∀ e ∈ (f rt cfg s).st.trace,
      e.shows (f rt cfg s).st.handlesStop (f rt cfg s).st.handlesRestart = true)

/-! ## Concrete runtimes, used to evaluate the program -/

/-- A call that ends with status 0 and prints `out`. -/
def okReply (out : String) : Reply := { output := out, err := none, late := false }

/-- A call that ends with status 1. -/
def failReply : Reply := { output := "", err := some (ExecError.exitError 1), late := false }

/-- A call that succeeds, but only after a racing timer has fired. -/
def lateReply (out : String) : Reply := { output := out, err := none, late := true }

/-- The runtime that answers with the listed replies, in order, and fails
every later call. -/
def replies (l : List Reply) : Runtime := fun k => l.getD k failReply

/-- The command line `image-checker busybox` with the default flags. -/
def defaultConfig : Config :=
  { image := "busybox", flRunArgs := "-d", flRunCmd := "", flCleanupOnFailure := true }

/-- A runtime under which every call succeeds and the container stops and
restarts as it should. -/
def happyRuntime : Runtime :=
  replies [okReply "", okReply "abc\n", okReply "true 0\n",
    okReply "abc\n", okReply "0\n", okReply "false 0\n",
    okReply "abc\n", okReply "true 0\n",
    okReply "abc\n", okReply "0\n", okReply "false 0\n",
    okReply "abc\n", okReply "abc\n"]

/-- A runtime under which the container ignores SIGTERM in the first stop test. -/
def ignoresTermRuntime : Runtime :=
  replies [okReply "", okReply "abc\n", okReply "true 0\n",
    okReply "abc\n", lateReply "", okReply "true 0\n", okReply "abc\n",
    okReply "abc\n", okReply "true 0\n",
    okReply "abc\n", okReply "abc\n"]

/-- A runtime under which the container stops on the first SIGTERM, restarts,
and then ignores the second SIGTERM. -/
def secondStopHangsRuntime : Runtime :=
  replies [okReply "", okReply "abc\n", okReply "true 0\n",
    okReply "abc\n", okReply "0\n", okReply "false 0\n",
    okReply "abc\n", okReply "true 0\n",
    okReply "abc\n", lateReply "", okReply "true 0\n", okReply "abc\n",
    okReply "abc\n", okReply "abc\n"]

/-- A runtime under which the inspection after the first stop test fails. -/
def inspectFailsRuntime : Runtime :=
  replies [okReply "", okReply "abc\n", okReply "true 0\n",
    okReply "abc\n", okReply "0\n", failReply]

/-- A runtime under which the container has already exited at the first inspection. -/
def exitsAtOnceRuntime : Runtime :=
  replies [okReply "", okReply "abc\n", okReply "false 1\n", okReply "", okReply "abc\n"]

/-- A runtime under which the container comes up and then the SIGTERM call
fails while every later call succeeds. -/
def stopFailsRuntime : Runtime :=
  replies [okReply "", okReply "abc\n", okReply "true 0\n",
    failReply, okReply "", okReply "0\n", okReply "false 0\n"]

/-- A runtime under which the container stops and is started again, and the
inspection after the restart then prints `yes` in the running field. -/
def runningDriftRuntime : Runtime :=
  replies [okReply "", okReply "abc\n", okReply "true 0\n",
    okReply "abc\n", okReply "0\n", okReply "false 0\n",
    okReply "abc\n", okReply "yes 0\n",
    okReply "abc\n", okReply "abc\n"]

/-! ## Normal forms of the helpers -/

theorem dockerCmd_eq (rt : Runtime) (s : St) (args : List String) :
    dockerCmd rt s args =
      (if (rt s.calls).err.isSome then ("", some GoError.errorf) else ((rt s.calls).output, none),
        (invoke rt s args).2) := by
  unfold dockerCmd runCommandWithOutput invoke
  cases h : (rt s.calls).err <;> simp [h, processExitCode]

theorem getContainerState_eq (rt : Runtime) (s : St) (id : String) :
    getContainerState rt s id =
      (if (rt s.calls).err.isSome then ((0, false), some GoError.errorf)
        else parseState (rt s.calls).output,
        (invoke rt s ["inspect", stateFormat, id]).2) := by
  unfold getContainerState
  rw [dockerCmd_eq]
  cases h : (rt s.calls).err <;> simp [h]

theorem stopContainer_eq (rt : Runtime) (s : St) (id : String) :
    stopContainer rt s id =
      (if (rt s.calls).err.isSome then some GoError.errorf else none,
        (invoke rt s ["kill", "-s", "TERM", id]).2) := by
  unfold stopContainer
  rw [dockerCmd_eq]
  cases h : (rt s.calls).err <;> simp [h]

theorem startContainer_eq (rt : Runtime) (s : St) (id : String) :
    startContainer rt s id =
      (if (rt s.calls).err.isSome then some GoError.errorf else none,
        (invoke rt s ["start", id]).2) := by
  unfold startContainer
  rw [dockerCmd_eq]
  cases h : (rt s.calls).err <;> simp [h]

theorem pullImage_eq (rt : Runtime) (s : St) (image : String) :
    pullImage rt s image =
      (if (rt s.calls).err.isSome then some GoError.errorf else none,
        (invoke rt s ["pull", image]).2) := by
  unfold pullImage
  rw [dockerCmd_eq]
  cases h : (rt s.calls).err <;> simp [h]

theorem imageExists_eq (rt : Runtime) (s : St) (image : String) :
    imageExists rt s image =
      (if (rt s.calls).err.isSome then some GoError.errorf else none,
        (invoke rt s ["inspect", image]).2) := by
  unfold imageExists
  rw [dockerCmd_eq]
  cases h : (rt s.calls).err <;> simp [h]

theorem runContainer_eq (rt : Runtime) (s : St) (args : List String) :
    runContainer rt s args =
      (if (rt s.calls).err.isSome then ("", some GoError.errorf)
        else (Trim (rt s.calls).output "\n", none),
        (invoke rt s args).2) := by
  unfold runContainer
  rw [dockerCmd_eq]
  cases h : (rt s.calls).err <;> simp [h]

theorem killContainer_snd (rt : Runtime) (s : St) (id : String) :
    (killContainer rt s id).2 = (invoke rt s ["kill", id]).2 := by
  unfold killContainer runCommand
  simp only []
  split <;> rfl

theorem cleanUp_eq (rt : Runtime) (s : St) (id : String) :
    cleanUp rt s id = (invoke rt (invoke rt s ["kill", id]).2 ["rm", id]).2 := by
  unfold cleanUp deleteContainer
  simp only [dockerCmd_eq, killContainer_snd]
  split <;> rfl

theorem timeoutDockerCmd_eq (rt : Runtime) (s : St) (t : Nat) (args : List String) :
    timeoutDockerCmd rt s t args =
      if (rt s.calls).late then
        (some GoError.errTimeout, (invoke rt s args).2.emit (Event.print Msg.timeoutReached))
      else (if (rt s.calls).err.isSome then some GoError.errorf else none, (invoke rt s args).2) := by
  unfold timeoutDockerCmd
  rw [dockerCmd_eq]
  cases h : (rt s.calls).err <;> simp [h]

theorem exec_append (rt : Runtime) (cfg : Config) (l1 l2 : List Stmt) (s : St) :
    exec rt cfg (l1 ++ l2) s =
      match exec rt cfg l1 s with
      | Step.next s1 => exec rt cfg l2 s1
      | Step.exit c s1 => Step.exit c s1 := by
  induction l1 generalizing s with
  | nil => simp [exec]
  | cons f fs ih =>
    simp only [List.cons_append, exec]
    cases h : f rt cfg s <;> simp [ih]

theorem restart_eq (rt : Runtime) (cfg : Config) (s : St) :
    restart rt cfg s = Step.next
      { (invoke rt s ["start", s.containerID]).2 with
        handlesRestart := s.handlesRestart && !(rt s.calls).err.isSome && s.handlesStop } := by
  unfold restart
  simp only [startContainer_eq, invoke]
  cases h : (rt s.calls).err <;> cases h2 : s.handlesStop <;> cases h3 : s.handlesRestart <;> simp [h, h2, h3]

/-! ## Invariants of the statement groups -/

theorem mainBody_nonIncreasing : ∀ f ∈ mainBody, NonIncreasing f := by
  intro f hf
  simp only [mainBody, prepare, firstStopTest, restartTest, secondStopTest, List.cons_append,
    List.nil_append, List.mem_cons, List.mem_singleton, List.not_mem_nil, or_false] at hf
  rcases hf with rfl | rfl | rfl | rfl | rfl | rfl | rfl | rfl | rfl | rfl | rfl | rfl | rfl | rfl | rfl | rfl <;>
    intro rt cfg s
  · unfold checkFlags; repeat' split
    all_goals simp [Step.st, St.emit]
  · unfold ensureImage; simp only [imageExists_eq, pullImage_eq, invoke]; repeat' split
    all_goals simp [Step.st, St.emit]
  · unfold buildArgs; repeat' split
    all_goals simp [Step.st, St.emit]
  · unfold runStep; simp only [runContainer_eq, invoke]; repeat' split
    all_goals simp [Step.st, St.emit]
  · unfold liveness; simp only [getContainerState_eq, cleanUp_eq, invoke]; repeat' split
    all_goals simp [Step.st, St.emit]
  · unfold firstStop; simp only [stopContainer_eq, cleanUp_eq, invoke]; repeat' split
    all_goals simp [Step.st, St.emit]
  · unfold firstWait; simp only [timeoutDockerCmd_eq, invoke]; repeat' split
    all_goals simp [Step.st, St.emit]
  · unfold firstInspect; simp only [getContainerState_eq, killContainer_snd, invoke]; repeat' split
    all_goals simp [Step.st, St.emit]
  · rw [restart_eq]; simp [Step.st, invoke]
    intro h _ _; exact h
  · unfold inspectRestarted; simp only [getContainerState_eq, invoke]; repeat' split
    all_goals simp [Step.st, St.emit]
  · unfold gate; simp only [cleanUp_eq, printResults, invoke]; repeat' split
    all_goals simp [Step.st, St.emit]
  · unfold secondStop; simp only [stopContainer_eq, killContainer_snd, invoke]; repeat' split
    all_goals simp [Step.st, St.emit]
  · unfold secondWait; simp only [timeoutDockerCmd_eq, invoke]; repeat' split
    all_goals simp [Step.st, St.emit]
  · unfold secondInspect; simp only [getContainerState_eq, killContainer_snd, invoke]; repeat' split
    all_goals simp [Step.st, St.emit]
  · unfold terminal; simp only [cleanUp_eq, printResults, invoke]
    simp [Step.st, St.emit]

@[simp] theorem isReport_docker (a : List String) (r : Reply) :
    (Event.docker a r).isReport = false := rfl
@[simp] theorem isReport_sleep (n : Nat) : (Event.sleep n).isReport = false := rfl
@[simp] theorem isReport_print (m : Msg) : (Event.print m).isReport = false := rfl
@[simp] theorem isReport_results (i : String) (a b c : Bool) :
    (Event.results i a b c).isReport = true := rfl

theorem shows_of_not_report (tr : List Event) (h : ∀ e ∈ tr, e.isReport = false) (a b : Bool) :
    ∀ e ∈ tr, e.shows a b = true := by
  intro e he
  cases e with
  | results i x y z => exact absurd (h _ he) (by simp)
  | docker _ _ => rfl
  | sleep _ => rfl
  | print _ => rfl

theorem silent_stmts :
    ∀ f ∈ prepare ++ firstStopTest ++ restartTest ++ secondStopTest, Silent f := by
  intro f hf
  simp only [prepare, firstStopTest, restartTest, secondStopTest, List.cons_append,
    List.nil_append, List.mem_cons, List.mem_singleton, List.not_mem_nil, or_false] at hf
  rcases hf with rfl | rfl | rfl | rfl | rfl | rfl | rfl | rfl | rfl | rfl | rfl | rfl | rfl | rfl <;>
    intro rt cfg s hs
  · unfold checkFlags; repeat' split
    all_goals simp_all [St.emit, Step.st, or_imp, forall_and]
  · unfold ensureImage; simp only [imageExists_eq, pullImage_eq, invoke]; repeat' split
    all_goals simp_all [St.emit, Step.st, or_imp, forall_and]
  · unfold buildArgs; repeat' split
    all_goals simp_all [St.emit, Step.st, or_imp, forall_and]
  · unfold runStep; simp only [runContainer_eq, invoke]; repeat' split
    all_goals simp_all [St.emit, Step.st, or_imp, forall_and]
  · unfold liveness; simp only [getContainerState_eq, cleanUp_eq, invoke]; repeat' split
    all_goals simp_all [St.emit, Step.st, or_imp, forall_and]
  · unfold firstStop; simp only [stopContainer_eq, cleanUp_eq, invoke]; repeat' split
    all_goals simp_all [St.emit, Step.st, or_imp, forall_and]
  · unfold firstWait; simp only [timeoutDockerCmd_eq, invoke]; repeat' split
    all_goals simp_all [St.emit, Step.st, or_imp, forall_and]
  · unfold firstInspect; simp only [getContainerState_eq, killContainer_snd, invoke]; repeat' split
    all_goals simp_all [St.emit, Step.st, or_imp, forall_and]
  · rw [restart_eq]; simp_all [invoke, St.emit, Step.st, or_imp, forall_and]
  · unfold inspectRestarted; simp only [getContainerState_eq, invoke]; repeat' split
    all_goals simp_all [St.emit, Step.st, or_imp, forall_and]
  · unfold secondStop; simp only [stopContainer_eq, killContainer_snd, invoke]; repeat' split
    all_goals simp_all [St.emit, Step.st, or_imp, forall_and]
  · unfold secondWait; simp only [timeoutDockerCmd_eq, invoke]; repeat' split
    all_goals simp_all [St.emit, Step.st, or_imp, forall_and]
  · unfold secondInspect; simp only [getContainerState_eq, killContainer_snd, invoke]; repeat' split
    all_goals simp_all [St.emit, Step.st, or_imp, forall_and]

theorem reportsAtExit_of_silent (f : Stmt) (hf : Silent f) : ReportsAtExit f :=
  fun rt cfg s hs =>
    ⟨fun _ => hf rt cfg s hs, shows_of_not_report _ (hf rt cfg s hs) _ _⟩

theorem gate_reportsAtExit : ReportsAtExit gate := by
  intro rt cfg s hs
  have h2 := shows_of_not_report s.trace hs s.handlesStop s.handlesRestart
  unfold gate; simp only [cleanUp_eq, printResults, invoke]
  repeat' split
  all_goals simp_all [St.emit, Step.st, Step.exited, or_imp, forall_and, Event.shows]

theorem terminal_reported (rt : Runtime) (cfg : Config) (s : St)
    (hs : ∀ e ∈ s.trace, e.isReport = false) :
    ∀ e ∈ (terminal rt cfg s).st.trace,
      e.shows (terminal rt cfg s).st.handlesStop (terminal rt cfg s).st.handlesRestart = true := by
  have h2 := shows_of_not_report s.trace hs s.handlesStop s.handlesRestart
  unfold terminal; simp only [cleanUp_eq, printResults, invoke]
  simp_all [St.emit, Step.st, or_imp, forall_and, Event.shows]

theorem exec_nonIncreasing (rt : Runtime) (cfg : Config) (l : List Stmt)
    (hl : ∀ f ∈ l, NonIncreasing f) (s : St) :
    ((exec rt cfg l s).st.handlesStop = true → s.handlesStop = true) ∧
    ((exec rt cfg l s).st.handlesRestart = true → s.handlesRestart = true) := by
  induction l generalizing s with
  | nil => simp [exec, Step.st]
  | cons f fs ih =>
    have hf := hl f (List.mem_cons_self _ _) rt cfg s
    simp only [exec]
    cases h : f rt cfg s with
    | next s1 =>
      rw [h] at hf
      have := ih (fun g hg => hl g (List.mem_cons_of_mem _ hg)) s1
      exact ⟨fun x => hf.1 (this.1 x), fun x => hf.2 (this.2 x)⟩
    | exit c s1 =>
      rw [h] at hf
      exact hf

theorem stateAfter_nonIncreasing (rt : Runtime) (cfg : Config) (i j : Nat) (hij : i ≤ j) :
    ((stateAfter rt cfg j).handlesStop = true → (stateAfter rt cfg i).handlesStop = true) ∧
    ((stateAfter rt cfg j).handlesRestart = true →
      (stateAfter rt cfg i).handlesRestart = true) := by
  obtain ⟨d, rfl⟩ := Nat.exists_eq_add_of_le hij
  unfold stateAfter
  rw [List.take_add, exec_append]
  cases h : exec rt cfg (List.take i mainBody) initSt with
  | next s1 =>
    simp only [Step.st]
    exact exec_nonIncreasing rt cfg _
      (fun f hf => mainBody_nonIncreasing f
        (List.mem_of_mem_drop (List.mem_of_mem_take hf))) s1
  | exit c s1 => simp [Step.st]

theorem exec_reportsAtExit (rt : Runtime) (cfg : Config) (l : List Stmt)
    (hl : ∀ f ∈ l, ReportsAtExit f) (s : St) (hs : ∀ e ∈ s.trace, e.isReport = false) :
    ((exec rt cfg l s).exited = none → ∀ e ∈ (exec rt cfg l s).st.trace, e.isReport = false) ∧
    (∀ e ∈ (exec rt cfg l s).st.trace,
      e.shows (exec rt cfg l s).st.handlesStop (exec rt cfg l s).st.handlesRestart = true) := by
  induction l generalizing s with
  | nil => exact ⟨fun _ => by simpa [exec, Step.st] using hs,
      by simpa [exec, Step.st] using shows_of_not_report s.trace hs _ _⟩
  | cons f fs ih =>
    have hf := hl f (List.mem_cons_self _ _) rt cfg s hs
    simp only [exec]
    cases h : f rt cfg s with
    | next s1 =>
      rw [h] at hf
      exact ih (fun g hg => hl g (List.mem_cons_of_mem _ hg)) s1 (hf.1 rfl)
    | exit c s1 =>
      rw [h] at hf
      exact ⟨fun x => by simp [Step.exited] at x, hf.2⟩

theorem main_reported (rt : Runtime) (cfg : Config) :
    ∀ e ∈ (main rt cfg).trace,
      e.shows (stateAfter rt cfg mainBody.length).handlesStop
        (stateAfter rt cfg mainBody.length).handlesRestart = true := by
  have hall : ∀ f ∈ prepare ++ firstStopTest ++ restartTest ++ [gate] ++ secondStopTest,
      ReportsAtExit f := by
    intro f hf
    simp only [List.mem_append, List.mem_singleton] at hf
    rcases hf with (((h | h) | h) | h) | h
    · exact reportsAtExit_of_silent f (silent_stmts f (by simp [h]))
    · exact reportsAtExit_of_silent f (silent_stmts f (by simp [h]))
    · exact reportsAtExit_of_silent f (silent_stmts f (by simp [h]))
    · subst h; exact gate_reportsAtExit
    · exact reportsAtExit_of_silent f (silent_stmts f (by simp [h]))
  have h := exec_reportsAtExit rt cfg _ hall initSt (by simp [initSt])
  simp only [main, stateAfter, List.take_length]
  unfold mainBody
  rw [exec_append]
  cases h1 : exec rt cfg (prepare ++ firstStopTest ++ restartTest ++ [gate] ++ secondStopTest)
      initSt with
  | next s1 =>
    rw [h1] at h
    have ht := terminal_reported rt cfg s1 (h.1 rfl)
    simp only [exec]
    cases h2 : terminal rt cfg s1 with
    | next s2 => rw [h2] at ht; simpa [Step.st] using ht
    | exit c s2 => rw [h2] at ht; simpa [Step.st] using ht
  | exit c s1 =>
    rw [h1] at h
    simpa [Step.st] using h.2

@[simp] theorem isCall_docker_cons (c cmd : String) (l : List String) (r : Reply) :
    (Event.docker (c :: l) r).isCall cmd = (c == cmd) := rfl
@[simp] theorem isCall_docker_nil (cmd : String) (r : Reply) :
    (Event.docker [] r).isCall cmd = false := rfl
@[simp] theorem isCall_sleep (cmd : String) (n : Nat) : (Event.sleep n).isCall cmd = false := rfl
@[simp] theorem isCall_print (cmd : String) (m : Msg) : (Event.print m).isCall cmd = false := rfl
@[simp] theorem isCall_results (cmd i : String) (a b c : Bool) :
    (Event.results i a b c).isCall cmd = false := rfl

theorem exec_preserves (P : St → Prop) (rt : Runtime) (cfg : Config) (l : List Stmt)
    (hl : ∀ f ∈ l, ∀ s s1, P s → f rt cfg s = Step.next s1 → P s1)
    (s s1 : St) (hs : P s) (h : exec rt cfg l s = Step.next s1) : P s1 := by
  induction l generalizing s with
  | nil => simp only [exec, Step.next.injEq] at h; exact h ▸ hs
  | cons f fs ih =>
    simp only [exec] at h
    cases hf : f rt cfg s with
    | next s2 =>
      rw [hf] at h
      exact ih (fun g hg => hl g (List.mem_cons_of_mem _ hg)) s2
        (hl f (List.mem_cons_self _ _) s s2 hs hf) h
    | exit c s2 => rw [hf] at h; simp at h

theorem fresh_initSt : Fresh initSt := by
  simp [Fresh, initSt]

theorem prepare_fresh (rt : Runtime) (cfg : Config) :
    ∀ f ∈ prepare, ∀ s s1, Fresh s → f rt cfg s = Step.next s1 → Fresh s1 := by
  intro f hf
  simp only [prepare, List.mem_cons, List.mem_singleton, List.not_mem_nil, or_false] at hf
  rcases hf with rfl | rfl | rfl | rfl | rfl <;> intro s s1 hs h <;>
    obtain ⟨h1, h2, h3, h4, h5⟩ := hs
  · unfold checkFlags at h
    repeat' split at h
    all_goals first
      | (simp only [Step.next.injEq] at h; subst h
         simp_all [Fresh, St.emit, or_imp, forall_and])
      | simp at h
  · unfold ensureImage at h
    simp only [imageExists_eq, pullImage_eq, invoke] at h
    repeat' split at h
    all_goals first
      | (simp only [Step.next.injEq] at h; subst h
         simp_all [Fresh, St.emit, or_imp, forall_and])
      | simp at h
  · unfold buildArgs at h
    obtain ⟨tl, htl⟩ : ∃ tl, s.args = "run" :: tl := by
      cases hargs : s.args with
      | nil => simp [hargs] at h3
      | cons a tl => simp [hargs] at h3; exact ⟨tl, by rw [h3]⟩
    repeat' split at h
    all_goals
      simp only [Step.next.injEq] at h; subst h
      simp_all [Fresh, St.emit, or_imp, forall_and]
  · unfold runStep at h
    obtain ⟨tl, htl⟩ : ∃ tl, s.args = "run" :: tl := by
      cases hargs : s.args with
      | nil => simp [hargs] at h3
      | cons a tl => simp [hargs] at h3; exact ⟨tl, by rw [h3]⟩
    simp only [runContainer_eq, invoke] at h
    repeat' split at h
    all_goals first
      | (simp only [Step.next.injEq] at h; subst h
         simp_all [Fresh, St.emit, or_imp, forall_and])
      | simp at h
  · unfold liveness at h
    simp only [getContainerState_eq, cleanUp_eq, invoke] at h
    repeat' split at h
    all_goals first
      | (simp only [Step.next.injEq] at h; subst h
         simp_all [Fresh, St.emit, or_imp, forall_and])
      | simp at h

/-! ## Reading the container state -/

/-- C6: on the output of a successful inspect call, `getContainerState` fails
exactly when the trimmed output does not split into two fields on the space
character or the second field is rejected by `Atoi`; otherwise it returns the
integer value of the second field and whether the first field is `true`. -/
theorem getContainerState_parse (rt : Runtime) (s : St) (id : String)
    (hok : (rt s.calls).err = none) :
    ((getContainerState rt s id).1.2.isSome = true ↔
      ((Split (Trim (rt s.calls).output "\n") ' ').length ≠ 2 ∨
        ∀ f1, (Split (Trim (rt s.calls).output "\n") ' ')[1]? = some f1 → Atoi f1 = none)) ∧
    ((getContainerState rt s id).1.2 = none →
      ∃ f0 f1 n, Split (Trim (rt s.calls).output "\n") ' ' = [f0, f1] ∧ Atoi f1 = some n ∧
        (getContainerState rt s id).1.1 = (n, f0 == "true")) := by
  rw [getContainerState_eq]
  simp only [hok, Option.isSome_none, Bool.false_eq_true, if_false, parseState]
  generalize Split (Trim (rt s.calls).output "\n") ' ' = f
  match f with
  | [] => simp
  | [a] => simp
  | [f0, f1] =>
    cases h : Atoi f1 with
    | none => simp [h]
    | some n =>
      simp only [h]; simp
      exact ⟨by simp [h], f0, f1, ⟨rfl, rfl⟩, n, h, rfl, Iff.rfl⟩
  | a :: b :: c :: l => simp

/-- Witness of C6: the output `false 137` of a successful inspect call. -/
theorem getContainerState_parse_witness :
    (replies [okReply "false 137\n"] initSt.calls).err = none ∧
    ((getContainerState (replies [okReply "false 137\n"]) initSt "abc").1.2 = none →
      ∃ f0 f1 n,
        Split (Trim (replies [okReply "false 137\n"] initSt.calls).output "\n") ' ' = [f0, f1] ∧
        Atoi f1 = some n ∧
        (getContainerState (replies [okReply "false 137\n"]) initSt "abc").1.1 =
          (n, f0 == "true")) :=
  ⟨rfl, (getContainerState_parse (replies [okReply "false 137\n"]) initSt "abc" rfl).2⟩

/-- Counterexample to C7: the output `True 0`, whose running field is neither
`true` nor `false`, is accepted and read as exit status 0, not running. -/
theorem running_field_counterexample :
    Split (Trim (replies [okReply "True 0\n"] initSt.calls).output "\n") ' ' = ["True", "0"] ∧
    (getContainerState (replies [okReply "True 0\n"]) initSt "abc").1 = ((0, false), none) := by
  decide

/-- C7 (amended): drift in the running field does not surface as a parse
failure. For every output of a successful inspect call that splits into
exactly two fields whose second field parses as the integer `n` and whose first
field is not the text `true`, `getContainerState` returns exit status `n`,
running `false` and no error. -/
theorem getContainerState_running_default (rt : Runtime) (s : St) (id f0 f1 : String) (n : Int)
    (hok : (rt s.calls).err = none)
    (hf : Split (Trim (rt s.calls).output "\n") ' ' = [f0, f1])
    (hn : Atoi f1 = some n) (h0 : f0 ≠ "true") :
    (getContainerState rt s id).1 = ((n, false), none) := by
  rw [getContainerState_eq]
  simp [hok, parseState, hf, hn, h0]

/-- Witness of C7 (amended): the output `yes 0` is read as exit status 0, not
running. -/
theorem getContainerState_running_default_witness :
    (getContainerState (replies [okReply "yes 0\n"]) initSt "abc").1 = ((0, false), none) :=
  getContainerState_running_default (replies [okReply "yes 0\n"]) initSt "abc" "yes" "0" 0
    rfl (by decide) (by decide) (by decide)

/-! ## The restart gate and the two stop tests -/

theorem inspectRestarted_verdicts (rt : Runtime) (cfg : Config) (s s1 : St)
    (h : inspectRestarted rt cfg s = Step.next s1) :
    s1.handlesStop = s.handlesStop ∧ (s1.handlesRestart = true → s.handlesRestart = true) := by
  unfold inspectRestarted at h
  simp only [getContainerState_eq, invoke] at h
  repeat' split at h
  all_goals first | (simp at h; subst h; simp) | simp at h

/-- C3: in every run of `main` that reaches the early-exit gate, the state
right after the restart test has `handlesRestart = true` only if
`handlesStop = true`, whatever the start call and the inspection answered. -/
theorem restart_implies_stop (rt : Runtime) (cfg : Config) (s : St)
    (h : exec rt cfg (prepare ++ firstStopTest ++ restartTest) initSt = Step.next s)
    (hr : s.handlesRestart = true) : s.handlesStop = true := by
  rw [exec_append] at h
  split at h
  · rename_i s0 _
    simp only [restartTest, exec, restart_eq] at h
    split at h
    · rename_i s1 h1
      simp only [Step.next.injEq] at h
      subst h
      obtain ⟨hs, hr1⟩ := inspectRestarted_verdicts rt cfg _ _ h1
      have := hr1 hr
      simp only [invoke, Bool.and_eq_true] at this hs
      rw [hs]; exact this.2
    · simp at h
  · simp at h

/-- Witness of C3: the run in which every call succeeds reaches the gate with
both verdicts true. -/
theorem restart_implies_stop_witness :
    exec happyRuntime defaultConfig (prepare ++ firstStopTest ++ restartTest) initSt =
      Step.next (stateAfter happyRuntime defaultConfig 10) ∧
    (stateAfter happyRuntime defaultConfig 10).handlesRestart = true ∧
    (stateAfter happyRuntime defaultConfig 10).handlesStop = true :=
  ⟨by decide, by decide,
    restart_implies_stop happyRuntime defaultConfig _ (by decide) (by decide)⟩

/-- C5 (amended): the second stop test does what the first does whenever its
SIGTERM call succeeds (same calls, same state, same exit); when the SIGTERM call
fails, the first test prints the failure, removes the container with `kill` and
`rm` when autocleanup is enabled, and ends the process with status 1, whereas
the second marks the stop verdict as failed, force-kills the container and goes
on with the wait and the re-inspection. -/
theorem secondStopTest_vs_first (rt : Runtime) (cfg : Config) (s : St) :
    ((rt s.calls).err = none →
      exec rt cfg secondStopTest s = exec rt cfg firstStopTest s) ∧
    ((rt s.calls).err ≠ none →
      exec rt cfg firstStopTest s =
        Step.exit 1
          (if cfg.flCleanupOnFailure = true then
            (invoke rt
              (invoke rt
                ((invoke rt s ["kill", "-s", "TERM", s.containerID]).2.emit
                  (Event.print Msg.stopFailed))
                ["kill", s.containerID]).2
              ["rm", s.containerID]).2
          else
            (invoke rt s ["kill", "-s", "TERM", s.containerID]).2.emit
              (Event.print Msg.stopFailed)) ∧
      exec rt cfg secondStopTest s =
        exec rt cfg [secondWait, secondInspect]
          (invoke rt
            { (invoke rt s ["kill", "-s", "TERM", s.containerID]).2.emit
                (Event.print Msg.stopAfterRestartFailed) with handlesStop := false }
            ["kill", s.containerID]).2) := by
  constructor
  · intro h
    simp [secondStopTest, firstStopTest, exec, firstStop, secondStop, stopContainer_eq, h,
      firstWait, secondWait, firstInspect, secondInspect]
  · intro h
    obtain ⟨e, he⟩ := Option.ne_none_iff_exists'.mp h
    constructor
    · simp only [firstStopTest, exec, firstStop, stopContainer_eq, cleanUp_eq, he]
      cases cfg.flCleanupOnFailure <;> simp [invoke, St.emit]
    · simp [secondStopTest, exec, secondStop, stopContainer_eq, killContainer_snd, he, invoke,
        St.emit]

/-- Witness of C5 (amended): on the restarted container of a run in which
every call succeeds, the second stop test equals the first. -/
theorem secondStopTest_vs_first_witness :
    exec happyRuntime defaultConfig secondStopTest (stateAfter happyRuntime defaultConfig 11) =
      exec happyRuntime defaultConfig firstStopTest (stateAfter happyRuntime defaultConfig 11) :=
  (secondStopTest_vs_first happyRuntime defaultConfig _).1 (by decide)

/-- Counterexample to C5: after the container has come up, a SIGTERM call that
fails makes the first stop test end the process with status 1, while the
second stop test goes on and leaves `handlesStop` false. -/
theorem secondStopTest_counterexample :
    exec stopFailsRuntime defaultConfig prepare initSt =
      Step.next (stateAfter stopFailsRuntime defaultConfig 5) ∧
    (exec stopFailsRuntime defaultConfig firstStopTest
      (stateAfter stopFailsRuntime defaultConfig 5)).exited = some 1 ∧
    (exec stopFailsRuntime defaultConfig secondStopTest
      (stateAfter stopFailsRuntime defaultConfig 5)).exited = none ∧
    (exec stopFailsRuntime defaultConfig secondStopTest
      (stateAfter stopFailsRuntime defaultConfig 5)).st.handlesStop = false := by
  decide

/-! ## The liveness check and the first stop test -/

theorem mainBody_split :
    mainBody = [checkFlags, ensureImage, buildArgs, runStep] ++
      (liveness :: (firstStopTest ++ restartTest ++ [gate] ++ secondStopTest ++ [terminal])) := by
  simp [mainBody, prepare]

theorem args_before_run (rt : Runtime) (cfg : Config) (s0 : St)
    (h : exec rt cfg [checkFlags, ensureImage, buildArgs] initSt = Step.next s0) :
    s0.args = ["run"] ++ Split cfg.flRunArgs ' ' ++ [cfg.image] ++
      (if cfg.flRunCmd.length > 0 then Split cfg.flRunCmd ' ' else []) := by
  rw [show [checkFlags, ensureImage, buildArgs] = [checkFlags, ensureImage] ++ [buildArgs]
    from rfl, exec_append] at h
  cases h0 : exec rt cfg [checkFlags, ensureImage] initSt with
  | exit c s1 => rw [h0] at h; simp at h
  | next s1 =>
    have hargs : s1.args = ["run"] := by
      refine exec_preserves (fun s => s.args = ["run"]) rt cfg _ ?_ initSt s1 rfl h0
      intro f hf s s2 hs hstep
      simp only [List.mem_cons, List.mem_singleton, List.not_mem_nil, or_false] at hf
      rcases hf with rfl | rfl
      · unfold checkFlags at hstep
        repeat' split at hstep
        all_goals first
          | (simp only [Step.next.injEq] at hstep; subst hstep; simpa [St.emit] using hs)
          | simp at hstep
      · unfold ensureImage at hstep
        simp only [imageExists_eq, pullImage_eq, invoke] at hstep
        repeat' split at hstep
        all_goals first
          | (simp only [Step.next.injEq] at hstep; subst hstep; simpa [St.emit] using hs)
          | simp at hstep
    rw [h0] at h
    simp only [exec] at h
    unfold buildArgs at h
    by_cases hc : cfg.flRunCmd.length > 0
    · simp only [hc, if_true, Step.next.injEq] at h
      subst h
      simp [hargs, hc]
    · simp only [hc, if_false, Step.next.injEq] at h
      subst h
      simp [hargs, hc]

/-- C9: when the run call succeeds and the first inspection after the settle
wait succeeds and reports the container as not running, then the container id
of `main` is the output of that run call without its newlines, and `main` ends
with status 1; after the inspection it only issues, when autocleanup is
enabled, `kill` and `rm` for that id, and prints the error; it prints no
verdict report and sends no SIGTERM. -/
theorem exits_at_once_is_fatal (rt : Runtime) (cfg : Config) (s : St) (ec : Int)
    (hreach : exec rt cfg [checkFlags, ensureImage, buildArgs, runStep] initSt = Step.next s)
    (hok : (rt s.calls).err = none)
    (hstate : parseState (rt s.calls).output = ((ec, false), none)) :
    (∃ s0, exec rt cfg [checkFlags, ensureImage, buildArgs] initSt = Step.next s0 ∧
      s0.args = ["run"] ++ Split cfg.flRunArgs ' ' ++ [cfg.image] ++
        (if cfg.flRunCmd.length > 0 then Split cfg.flRunCmd ' ' else []) ∧
      (rt s0.calls).err = none ∧
      s.calls = s0.calls + 1 ∧
      s.trace = s0.trace ++ [Event.docker s0.args (rt s0.calls), Event.sleep 5] ∧
      s.containerID = Trim (rt s0.calls).output "\n") ∧
    (main rt cfg).status = 1 ∧
    (main rt cfg).trace =
      s.trace ++ [Event.docker ["inspect", stateFormat, s.containerID] (rt s.calls)] ++
        (if cfg.flCleanupOnFailure = true then
          [Event.docker ["kill", s.containerID] (rt (s.calls + 1)),
            Event.docker ["rm", s.containerID] (rt (s.calls + 2))]
        else []) ++ [Event.print Msg.error] ∧
    (∀ e ∈ (main rt cfg).trace, e.isReport = false) ∧
    (∀ r, Event.docker ["kill", "-s", "TERM", s.containerID] r ∉ (main rt cfg).trace) := by
  have hfresh : Fresh s :=
    exec_preserves Fresh rt cfg _
      (fun f hf => prepare_fresh rt cfg f (by
        simp only [prepare, List.mem_cons, List.mem_singleton, List.not_mem_nil, or_false] at hf ⊢
        tauto))
      initSt s fresh_initSt hreach
  obtain ⟨-, -, -, hkill, hrep⟩ := hfresh
  have hnoterm : ∀ r, Event.docker ["kill", "-s", "TERM", s.containerID] r ∉ s.trace :=
    fun r hr => by simpa using hkill _ hr
  refine ⟨?_, ?_⟩
  · have hrun := hreach
    rw [show [checkFlags, ensureImage, buildArgs, runStep] =
      [checkFlags, ensureImage, buildArgs] ++ [runStep] from rfl, exec_append] at hrun
    cases h0 : exec rt cfg [checkFlags, ensureImage, buildArgs] initSt with
    | exit c s1 => rw [h0] at hrun; simp at hrun
    | next s0 =>
      rw [h0] at hrun
      refine ⟨s0, rfl, args_before_run rt cfg s0 h0, ?_⟩
      simp only [exec] at hrun
      unfold runStep at hrun
      simp only [runContainer_eq, invoke] at hrun
      cases herr : (rt s0.calls).err with
      | some e => simp [herr] at hrun
      | none =>
        simp only [herr, Option.isSome_none, Bool.false_eq_true, if_false,
          Step.next.injEq] at hrun
        subst hrun
        simp [St.emit]
  · simp only [main]
    rw [mainBody_split, exec_append, hreach]
    simp only [exec]
    unfold liveness
    simp only [getContainerState_eq, cleanUp_eq, hok, hstate, St.emit, invoke]
    cases cfg.flCleanupOnFailure <;>
      simp_all [Step.status, Step.st, or_imp, forall_and]

/-- Witness of C9: a container `abc` that has exited with status 1 at the first
inspection. -/
theorem exits_at_once_is_fatal_witness :
    exec exitsAtOnceRuntime defaultConfig [checkFlags, ensureImage, buildArgs, runStep] initSt =
      Step.next (stateAfter exitsAtOnceRuntime defaultConfig 4) ∧
    (stateAfter exitsAtOnceRuntime defaultConfig 4).containerID = "abc" ∧
    (main exitsAtOnceRuntime defaultConfig).status = 1 :=
  ⟨by decide, by decide,
    (exits_at_once_is_fatal exitsAtOnceRuntime defaultConfig
      (stateAfter exitsAtOnceRuntime defaultConfig 4) 1
      (by decide) (by decide) (by decide)).2.1⟩

/-- C4: from a state that reaches the first stop test, when the SIGTERM call
succeeds and the re-inspection succeeds with exit code `ec` and running flag
`running`, the test goes on to the restart; `handlesStop` is then true exactly
when the wait did not time out and the state is not running with exit code 0;
and a forced `kill` of the container is in the trace, which ends right before
the `start` call, exactly when the state is running or has a non-zero exit
code. -/
theorem firstStopTest_verdict (rt : Runtime) (cfg : Config) (s : St) (ec : Int) (running : Bool)
    (hreach : exec rt cfg prepare initSt = Step.next s)
    (hstop : (rt s.calls).err = none)
    (hinsp : (rt (s.calls + 2)).err = none)
    (hstate : parseState (rt (s.calls + 2)).output = ((ec, running), none)) :
    ∃ s3, exec rt cfg firstStopTest s = Step.next s3 ∧
      s3.exitCode = ec ∧ s3.isRunning = running ∧
      (s3.handlesStop = true ↔ ((rt (s.calls + 1)).late = false ∧ running = false ∧ ec = 0)) ∧
      ((∃ r, Event.docker ["kill", s.containerID] r ∈ s3.trace) ↔ (running = true ∨ ec ≠ 0)) ∧
      (restart rt cfg s3).st.trace =
        s3.trace ++ [Event.docker ["start", s.containerID] (rt s3.calls)] := by
  obtain ⟨hs, -, -, hkill, -⟩ :=
    exec_preserves Fresh rt cfg _ (prepare_fresh rt cfg) initSt s fresh_initSt hreach
  have hnokill : ∀ r, Event.docker ["kill", s.containerID] r ∉ s.trace :=
    fun r hr => by simpa using hkill _ hr
  have hinsp1 : (rt (s.calls + 1 + 1)).err = none := hinsp
  have hstate1 : parseState (rt (s.calls + 1 + 1)).output = ((ec, running), none) := hstate
  simp only [firstStopTest, exec, firstStop, firstWait, firstInspect, stopContainer_eq,
    timeoutDockerCmd_eq, getContainerState_eq, killContainer_snd, invoke, St.emit, hstop,
    restart_eq]
  cases hl : (rt (s.calls + 1)).late <;> cases running <;> by_cases hec : ec = 0 <;>
    cases he : (rt (s.calls + 1)).err <;>
    simp_all [Step.st]


/-- Witness of C4: a container that ignores SIGTERM, so that the wait times
out and the re-inspection still reports it as running. -/
theorem firstStopTest_verdict_witness :
    exec ignoresTermRuntime defaultConfig prepare initSt =
      Step.next (stateAfter ignoresTermRuntime defaultConfig 5) ∧
    ∃ s3, exec ignoresTermRuntime defaultConfig firstStopTest
        (stateAfter ignoresTermRuntime defaultConfig 5) = Step.next s3 ∧
      s3.exitCode = 0 ∧ s3.isRunning = true ∧
      (s3.handlesStop = true ↔
        ((ignoresTermRuntime ((stateAfter ignoresTermRuntime defaultConfig 5).calls + 1)).late
          = false ∧ true = false ∧ (0 : Int) = 0)) ∧
      ((∃ r, Event.docker ["kill", (stateAfter ignoresTermRuntime defaultConfig 5).containerID] r
          ∈ s3.trace) ↔ (true = true ∨ (0 : Int) ≠ 0)) ∧
      (restart ignoresTermRuntime defaultConfig s3).st.trace =
        s3.trace ++ [Event.docker ["start",
          (stateAfter ignoresTermRuntime defaultConfig 5).containerID]
          (ignoresTermRuntime s3.calls)] :=
  ⟨by decide,
    firstStopTest_verdict ignoresTermRuntime defaultConfig
      (stateAfter ignoresTermRuntime defaultConfig 5) 0 true
      (by decide) (by decide) (by decide) (by decide)⟩

/-! ## Infrastructure failures -/

@[simp] theorem isInfraFailure_sleep (n : Nat) : (Event.sleep n).isInfraFailure = false := rfl
@[simp] theorem isInfraFailure_print (m : Msg) : (Event.print m).isInfraFailure = false := rfl
@[simp] theorem isInfraFailure_results (i : String) (a b c : Bool) :
    (Event.results i a b c).isInfraFailure = false := rfl
@[simp] theorem isInfraFailure_inspectState (id : String) (r : Reply) :
    (Event.docker ["inspect", stateFormat, id] r).isInfraFailure =
      (r.err.isSome || (parseState r.output).2.isSome) := by
  simp [Event.isInfraFailure]
@[simp] theorem isInfraFailure_inspectImage (image : String) (r : Reply) :
    (Event.docker ["inspect", image] r).isInfraFailure = false := by
  simp [Event.isInfraFailure]
@[simp] theorem isInfraFailure_pull (image : String) (r : Reply) :
    (Event.docker ["pull", image] r).isInfraFailure = r.err.isSome := by
  simp [Event.isInfraFailure]
@[simp] theorem isInfraFailure_run (tl : List String) (r : Reply) :
    (Event.docker ("run" :: tl) r).isInfraFailure = r.err.isSome := by
  simp [Event.isInfraFailure]
@[simp] theorem isInfraFailure_kill (id : String) (r : Reply) :
    (Event.docker ["kill", id] r).isInfraFailure = false := by
  simp [Event.isInfraFailure]
@[simp] theorem isInfraFailure_term (id : String) (r : Reply) :
    (Event.docker ["kill", "-s", "TERM", id] r).isInfraFailure = false := by
  simp [Event.isInfraFailure]
@[simp] theorem isInfraFailure_rm (id : String) (r : Reply) :
    (Event.docker ["rm", id] r).isInfraFailure = false := by
  simp [Event.isInfraFailure]
@[simp] theorem isInfraFailure_start (id : String) (r : Reply) :
    (Event.docker ["start", id] r).isInfraFailure = false := by
  simp [Event.isInfraFailure]
@[simp] theorem isInfraFailure_wait (id : String) (r : Reply) :
    (Event.docker ["wait", id] r).isInfraFailure = false := by
  simp [Event.isInfraFailure]

set_option maxHeartbeats 1600000 in
theorem beforeTerminal_fatalOnInfra :
    ∀ f ∈ prepare ++ firstStopTest ++ restartTest ++ [gate] ++ secondStopTest,
      FatalOnInfra f := by
  intro f hf
  simp only [prepare, firstStopTest, restartTest, secondStopTest, List.cons_append,
    List.nil_append, List.mem_cons, List.mem_singleton, List.not_mem_nil, or_false] at hf
  rcases hf with rfl | rfl | rfl | rfl | rfl | rfl | rfl | rfl | rfl | rfl | rfl | rfl | rfl | rfl | rfl <;>
    intro rt cfg s hs <;> obtain ⟨h1, h2, h3⟩ := hs
  · unfold checkFlags; repeat' split
    all_goals simp_all [Clean, St.emit, Step.st, Step.exited, or_imp, forall_and]
  · unfold ensureImage; simp only [imageExists_eq, pullImage_eq, invoke]
    cases h0 : (rt s.calls).err <;> cases h01 : (rt (s.calls + 1)).err <;>
      simp_all [Clean, St.emit, Step.st, Step.exited, or_imp, forall_and]
  · unfold buildArgs
    obtain ⟨tl, htl⟩ : ∃ tl, s.args = "run" :: tl := by
      cases hargs : s.args with
      | nil => simp [hargs] at h1
      | cons a tl => simp [hargs] at h1; exact ⟨tl, by rw [h1]⟩
    repeat' split
    all_goals simp_all [Clean, St.emit, Step.st, Step.exited, or_imp, forall_and]
  · unfold runStep
    obtain ⟨tl, htl⟩ : ∃ tl, s.args = "run" :: tl := by
      cases hargs : s.args with
      | nil => simp [hargs] at h1
      | cons a tl => simp [hargs] at h1; exact ⟨tl, by rw [h1]⟩
    simp only [runContainer_eq, invoke]
    cases h0 : (rt s.calls).err <;>
      simp_all [Clean, St.emit, Step.st, Step.exited, or_imp, forall_and]
  · unfold liveness; simp only [getContainerState_eq, cleanUp_eq, invoke]
    cases h0 : (rt s.calls).err <;> cases hp : (parseState (rt s.calls).output).2 <;>
      cases hr : (parseState (rt s.calls).output).1.2 <;> cases cfg.flCleanupOnFailure <;>
      simp_all [Clean, St.emit, Step.st, Step.exited, or_imp, forall_and]
  · unfold firstStop; simp only [stopContainer_eq, cleanUp_eq, invoke]
    cases h0 : (rt s.calls).err <;> cases cfg.flCleanupOnFailure <;>
      simp_all [Clean, St.emit, Step.st, Step.exited, or_imp, forall_and]
  · unfold firstWait; simp only [timeoutDockerCmd_eq, invoke]
    cases h0 : (rt s.calls).err <;> cases hl : (rt s.calls).late <;>
      simp_all [Clean, St.emit, Step.st, Step.exited, or_imp, forall_and]
  · unfold firstInspect; simp only [getContainerState_eq, killContainer_snd, invoke]
    cases h0 : (rt s.calls).err <;> cases hp : (parseState (rt s.calls).output).2 <;>
      cases hr : (parseState (rt s.calls).output).1.2 <;>
      by_cases hec : (parseState (rt s.calls).output).1.1 = 0 <;>
      simp_all [Clean, St.emit, Step.st, Step.exited, or_imp, forall_and]
  · rw [restart_eq]
    simp_all [Clean, invoke, St.emit, Step.st, Step.exited, or_imp, forall_and]
  · unfold inspectRestarted; simp only [getContainerState_eq, invoke]
    cases h0 : (rt s.calls).err <;> cases hp : (parseState (rt s.calls).output).2 <;>
      cases hr : (parseState (rt s.calls).output).1.2 <;>
      simp_all [Clean, St.emit, Step.st, Step.exited, or_imp, forall_and]
  · unfold gate; simp only [cleanUp_eq, printResults, invoke]
    cases s.handlesStop <;> cases s.handlesRestart <;> cases cfg.flCleanupOnFailure <;>
      simp_all [Clean, St.emit, Step.st, Step.exited, or_imp, forall_and]
  · unfold secondStop; simp only [stopContainer_eq, killContainer_snd, invoke]
    cases h0 : (rt s.calls).err <;>
      simp_all [Clean, St.emit, Step.st, Step.exited, or_imp, forall_and]
  · unfold secondWait; simp only [timeoutDockerCmd_eq, invoke]
    cases h0 : (rt s.calls).err <;> cases hl : (rt s.calls).late <;>
      simp_all [Clean, St.emit, Step.st, Step.exited, or_imp, forall_and]
  · unfold secondInspect; simp only [getContainerState_eq, killContainer_snd, invoke]
    cases h0 : (rt s.calls).err <;> cases hp : (parseState (rt s.calls).output).2 <;>
      cases hr : (parseState (rt s.calls).output).1.2 <;>
      by_cases hec : (parseState (rt s.calls).output).1.1 = 0 <;>
      simp_all [Clean, St.emit, Step.st, Step.exited, or_imp, forall_and]

theorem terminal_noInfra (rt : Runtime) (cfg : Config) (s : St) (hs : Clean s) :
    ∀ e ∈ (terminal rt cfg s).st.trace, e.isInfraFailure = false := by
  obtain ⟨h1, h2, h3⟩ := hs
  unfold terminal; simp only [cleanUp_eq, printResults, invoke]
  simp_all [St.emit, Step.st, or_imp, forall_and]

theorem exec_fatalOnInfra (rt : Runtime) (cfg : Config) (l : List Stmt)
    (hl : ∀ f ∈ l, FatalOnInfra f) (s : St) (hs : Clean s) :
    ((exec rt cfg l s).exited = none → Clean (exec rt cfg l s).st) ∧
    ((∃ e ∈ (exec rt cfg l s).st.trace, e.isInfraFailure = true) →
      (exec rt cfg l s).exited = some 1 ∧ ∀ e ∈ (exec rt cfg l s).st.trace, e.isReport = false) := by
  induction l generalizing s with
  | nil =>
    refine ⟨fun _ => by simpa [exec, Step.st] using hs, ?_⟩
    rintro ⟨e, he, hbad⟩
    simp only [exec, Step.st] at he
    rw [hs.2.2 e he] at hbad
    cases hbad
  | cons f fs ih =>
    have hf := hl f (List.mem_cons_self _ _) rt cfg s hs
    simp only [exec]
    cases h : f rt cfg s with
    | next s1 =>
      rw [h] at hf
      exact ih (fun g hg => hl g (List.mem_cons_of_mem _ hg)) s1 (hf.1 rfl)
    | exit c s1 =>
      rw [h] at hf
      exact ⟨fun x => by simp [Step.exited] at x, hf.2⟩

/-- C8 (amended): a run of `main` in which a `pull` call or the `run` call
fails, or a state inspection fails or returns output that `getContainerState`
rejects (not two fields, or a second field that is not an integer), ends with
exit status 1 (so neither 0 nor 2), and no verdict report is printed. -/
theorem infra_failure_is_fatal (rt : Runtime) (cfg : Config)
    (h : ∃ e ∈ (main rt cfg).trace, e.isInfraFailure = true) :
    (main rt cfg).status = 1 ∧ ∀ e ∈ (main rt cfg).trace, e.isReport = false := by
  have hinit : Clean initSt := by simp [Clean, initSt]
  have hpre := exec_fatalOnInfra rt cfg _ beforeTerminal_fatalOnInfra initSt hinit
  simp only [main] at h ⊢
  unfold mainBody at h ⊢
  rw [exec_append] at h ⊢
  cases h1 : exec rt cfg (prepare ++ firstStopTest ++ restartTest ++ [gate] ++ secondStopTest)
      initSt with
  | next s1 =>
    rw [h1] at hpre h
    have ht := terminal_noInfra rt cfg s1 (hpre.1 rfl)
    simp only [exec] at h
    obtain ⟨e, he, hbad⟩ := h
    exfalso
    cases h2 : terminal rt cfg s1 with
    | next s2 =>
      rw [h2] at ht he
      rw [ht e (by simpa [Step.st] using he)] at hbad
      cases hbad
    | exit c s2 =>
      rw [h2] at ht he
      rw [ht e (by simpa [Step.st] using he)] at hbad
      cases hbad
  | exit c s1 =>
    rw [h1] at hpre h
    have := hpre.2 (by simpa [Step.st] using h)
    simp only [Step.exited, Option.some.injEq] at this
    simpa [Step.status, Step.st] using this

/-- Witness of C8: the run in which the inspection after the first stop test
fails. -/
theorem infra_failure_is_fatal_witness :
    (∃ e ∈ (main inspectFailsRuntime defaultConfig).trace, e.isInfraFailure = true) ∧
    (main inspectFailsRuntime defaultConfig).status = 1 ∧
    ∀ e ∈ (main inspectFailsRuntime defaultConfig).trace, e.isReport = false :=
  ⟨by decide, infra_failure_is_fatal inspectFailsRuntime defaultConfig (by decide)⟩

/-- Counterexample to C8: the inspection after the restart answers `yes 0`,
which is not of the form `true` or `false` followed by an integer; the run
does not end with status 1: it prints a verdict report (restart FAILED) and
ends with status 2. -/
theorem running_drift_counterexample :
    Event.docker ["inspect", stateFormat, "abc"] (okReply "yes 0\n") ∈
      (main runningDriftRuntime defaultConfig).trace ∧
    (main runningDriftRuntime defaultConfig).status = 2 ∧
    Event.results "busybox" true false false ∈ (main runningDriftRuntime defaultConfig).trace := by
  decide

/-! ## Verdicts only go down -/

/-- C10: both verdicts are true when the probe sequence begins; along the
statement groups of `main` a verdict that is false at one point is false at
every later point; and every verdict report that is printed shows the verdicts
of the state in which the run ends. -/
theorem verdicts_nonIncreasing (rt : Runtime) (cfg : Config) :
    ((stateAfter rt cfg 0).handlesStop = true ∧ (stateAfter rt cfg 0).handlesRestart = true) ∧
    (∀ i j, i ≤ j →
      ((stateAfter rt cfg j).handlesStop = true → (stateAfter rt cfg i).handlesStop = true) ∧
      ((stateAfter rt cfg j).handlesRestart = true →
        (stateAfter rt cfg i).handlesRestart = true)) ∧
    (∀ img a b c, Event.results img a b c ∈ (main rt cfg).trace →
      a = (stateAfter rt cfg mainBody.length).handlesStop ∧
      b = (stateAfter rt cfg mainBody.length).handlesRestart) := by
  refine ⟨by simp [stateAfter, exec, Step.st, initSt], stateAfter_nonIncreasing rt cfg, ?_⟩
  intro img a b c h
  have := main_reported rt cfg _ h
  simpa [Event.shows] using this

/-! ## Exit paths that miss the clean-up or the failure status -/

/-- C1 (evaluation at the failing input): with autocleanup enabled and a run
call that returned the container id `abc`, a failure of the inspection after
the first stop test ends the process with status 1 although no `rm` call was
issued. -/
theorem cleanup_missing_after_inspect_failure :
    defaultConfig.flCleanupOnFailure = true ∧
    (stateAfter inspectFailsRuntime defaultConfig 16).containerID = "abc" ∧
    (main inspectFailsRuntime defaultConfig).status = 1 ∧
    (main inspectFailsRuntime defaultConfig).trace.all (fun e => !e.isCall "rm") = true := by
  decide

/-- C2 (evaluation at the failing input): when the container stops and
restarts once and then ignores the second SIGTERM, the report shows graceful
stop FAILED and the process still ends with status 0. -/
theorem status_zero_with_failed_verdict :
    Event.results "busybox" false true false ∈ (main secondStopHangsRuntime defaultConfig).trace ∧
    (main secondStopHangsRuntime defaultConfig).status = 0 := by
  decide

end ImageChecker
